import Mathlib

/-!
Shallow embedding of the GreenField firmware core (AgroTechLab-IFSC/greenfield_fw)
covering the Shared Configuration Store, the Firmware Update Coordinator living
inside `atl_mqtt5_event_handler` (src/main/atl_mqtt.c), the NVS storage
initialization (src/main/atl_storage.c, src/main/atl_config.c), and the
name-table lookups `atl_mqtt_get_mode` / `atl_mqtt_get_transport`.

C strings are embedded as Lean `String`s whose `.data` is the byte sequence
before the terminating NUL; `strncmp` and `strstr` are modelled on `List Char`.
Machine integers hold small values here (message ids, chunk counters), so they
are modelled as `Int`/`Nat`.  Calls into ESP-IDF (MQTT publishes, OTA partition
operations, restart) are recorded as explicit `Effect` values, and their
success/failure outcomes are supplied by an environment record, following the
source control flow statement by statement.
-/

namespace Greenfield

/-- C `strncmp(s1, s2, n) == 0`: compares at most `n` characters, stopping
early at a difference or when both strings reach their terminating NUL.  A NUL
on one side against a character on the other side is a difference.  Lists model
the characters before the implicit NUL terminator. -/
def strncmpEq : List Char → List Char → Nat → Bool
  | _, _, 0 => true
  | [], [], _ + 1 => true
  | [], _ :: _, _ + 1 => false
  | _ :: _, [], _ + 1 => false
  | a :: s1, b :: s2, n + 1 => a = b && strncmpEq s1 s2 n

/-- C `strstr(s, pat) != NULL`: `pat` occurs as a contiguous substring of `s`. -/
def strContains (pat : List Char) : List Char → Bool
  | [] => pat.isEmpty
  | c :: rest => pat.isPrefixOf (c :: rest) || strContains pat rest

/-- Topic the server uses to answer an attribute request, as built by
`sprintf(check_event_topic, "v1/devices/me/attributes/response/%d", request_id)`
in atl_mqtt.c. -/
def attrRespTopic (id : Int) : String :=
  "v1/devices/me/attributes/response/" ++ toString id

/-- Comparison string for firmware-chunk responses, as built by
`sprintf(check_event_topic, "v2/fw/response/%d/chunk/", request_id)` in
atl_mqtt.c: note it ends at `chunk/` and carries no chunk index. -/
def chunkRespCheck (id : Int) : String :=
  "v2/fw/response/" ++ toString id ++ "/chunk/"

/-- Topic on which the server actually delivers chunk `idx` for request `id`
(the device subscribes to `v2/fw/response/+/chunk/+`). -/
def chunkRespTopic (id : Int) (idx : Nat) : String :=
  chunkRespCheck id ++ toString idx

/-- The handler's stale check for attribute responses (atl_mqtt.c lines
617-622): accept iff `strncmp(event->topic, check_event_topic,
event->topic_len) == 0`. -/
def attrRespAccepted (topic : String) (request_id : Int) : Bool :=
  strncmpEq topic.data (attrRespTopic request_id).data topic.length

/-- The handler's stale check for firmware-chunk responses (atl_mqtt.c lines
704-709): accept iff `strncmp(event->topic, check_event_topic,
event->topic_len) == 0`. -/
def chunkRespAccepted (topic : String) (request_id : Int) : Bool :=
  strncmpEq topic.data (chunkRespCheck request_id).data topic.length

/-- `atl_ota_behaviour_e` from atl_ota.h. -/
inductive AtlOtaBehaviour where
  | disabled
  | verifyNotify
  | download
  | downloadReboot
deriving DecidableEq, Repr

/-- `atl_mqtt_mode_e` from atl_mqtt.h. -/
inductive AtlMqttMode where
  | disabled
  | agrotechlabCloud
  | third
deriving DecidableEq, Repr

/-- Observable calls the MQTT event handler makes into ESP-IDF, in program
order. `publishState s` is an `esp_mqtt_client_publish` of `{"fw_state": s}`
to `v1/devices/me/telemetry`; `requestChunk i` is the publish to
`v2/fw/request/<request_id>/chunk/<i>`. -/
inductive Effect where
  | publishState (s : String)
  | requestChunk (idx : Nat)
  | otaBegin
  | otaAbort
  | otaWrite (len : Nat)
  | otaEnd
  | getAppDesc
  | getSha256
  | setBootTarget
  | deviceRestart
deriving DecidableEq, Repr

/-- The `static` locals of `atl_mqtt5_event_handler` (atl_mqtt.c lines
126-133), which persist across events and form the coordinator's state.
`pubs` counts `esp_mqtt_client_publish` calls so the environment can supply
each call's returned message id. -/
structure HState where
  msg_id : Int
  request_id : Int
  chunk_size : Nat
  chunk_count : Nat
  chunk_current : Nat
  hasPartition : Bool
  update_handle : Nat
  pubs : Nat
deriving DecidableEq, Repr

/-- Initial values of the handler's static locals. -/
def initialHState : HState :=
  { msg_id := 0, request_id := 0, chunk_size := 4096, chunk_count := 0
    chunk_current := 0, hasPartition := false, update_handle := 0, pubs := 0 }

/-- Outcomes of the ESP-IDF OTA partition calls made during one event. -/
structure OtaEnv where
  nextPartitionOk : Bool
  beginOk : Bool
  beginHandle : Nat
  writeOk : Bool
  endOk : Bool
  descOk : Bool
  shaOk : Bool
  setBootOk : Bool
deriving DecidableEq, Repr

/-- External environment of the event handler: the value each
`esp_mqtt_client_publish` returns (indexed by the running publish counter),
the running image's project name and version as returned by
`esp_ota_get_partition_description`, and the OTA call outcomes. -/
structure MqttEnv where
  pubRet : Nat → Int
  runningTitle : String
  runningVersion : String
  ota : OtaEnv

/-- One `msg_id = esp_mqtt_client_publish(...)` call: stores the returned
message id and advances the publish counter. -/
def stPub (env : MqttEnv) (st : HState) : HState :=
  { st with msg_id := env.pubRet st.pubs, pubs := st.pubs + 1 }

/-- Ceiling division, the value of C `ceil((double)size / chunk_size)` for
exact (< 2^53) sizes. -/
def ceilDiv (a b : Nat) : Nat := (a + b - 1) / b

/-- The parsed `shared` object of a firmware-info response
(`fw_title`, `fw_version`, `fw_size`). -/
structure FwInfo where
  fw_title : String
  fw_version : String
  fw_size : Nat
deriving DecidableEq, Repr

/-- Body of the `v1/devices/me/attributes/response/` branch after the stale
check, the empty-message check and JSON parsing succeed (atl_mqtt.c lines
639-697).  Exact (title, version) match publishes `UPDATED`; matching title
with a different version publishes `DOWNLOADING`, sets
`chunk_count = ceil(fw_size / chunk_size)`, sets `request_id = msg_id + 1`
and publishes the request for chunk `chunk_current`; any other title does
nothing. -/
def processInfoResponse (env : MqttEnv) (st : HState) (info : FwInfo) :
    HState × List Effect :=
  if info.fw_title = env.runningTitle ∧ info.fw_version = env.runningVersion then
    (stPub env st, [.publishState "UPDATED"])
  else if info.fw_title = env.runningTitle ∧ info.fw_version ≠ env.runningVersion then
    let st1 := stPub env st
    let st2 := { st1 with chunk_count := ceilDiv info.fw_size st1.chunk_size }
    let st3 := { st2 with request_id := st2.msg_id + 1 }
    let st4 := stPub env st3
    (st4, [.publishState "DOWNLOADING", .requestChunk st3.chunk_current])
  else
    (st, [])

/-- Body of the `v2/fw/response/` branch after the stale check accepts the
message (atl_mqtt.c lines 711-899), statement by statement.  On the first
chunk it fetches the next update partition and calls `esp_ota_begin`; a begin
failure aborts the handle and publishes `FAILED` but does not leave the
handler, so the chunk is still written and the next one still requested.  A
write failure likewise publishes `FAILED` and continues.  After the last
chunk it publishes `DOWNLOADED`, finalizes with `esp_ota_end` (failure
publishes `FAILED`), reads the app descriptor and the partition SHA-256
(failures only log), then publishes `VERIFIED`, publishes `UPDATING`, calls
`esp_ota_set_boot_partition` (failure publishes `FAILED`) and on success
calls `esp_restart()`.  `behaviour` is the `ota.behaviour` field of the local
configuration copy in scope in the C function; the branch never reads it. -/
def processChunkResponse (env : MqttEnv) (behaviour : AtlOtaBehaviour)
    (st : HState) (dataLen : Nat) : HState × List Effect :=
  let (stA, effsA) :=
    if st.chunk_current = 0 then
      let stP := { st with hasPartition := env.ota.nextPartitionOk }
      if env.ota.beginOk then
        ({ stP with update_handle := env.ota.beginHandle }, [Effect.otaBegin])
      else
        (stPub env stP, [Effect.otaBegin, Effect.otaAbort, Effect.publishState "FAILED"])
    else (st, [])
  let (stB, effsB) :=
    if env.ota.writeOk then (stA, effsA ++ [Effect.otaWrite dataLen])
    else (stPub env stA, effsA ++ [Effect.otaWrite dataLen, Effect.otaAbort,
            Effect.publishState "FAILED"])
  let stC := { stB with chunk_current := stB.chunk_current + 1 }
  if stC.chunk_current < stC.chunk_count then
    let st1 := { stC with request_id := stC.msg_id + 1 }
    (stPub env st1, effsB ++ [Effect.requestChunk st1.chunk_current])
  else if stC.chunk_current = stC.chunk_count then
    let st1 := stPub env stC
    let effs1 := effsB ++ [Effect.publishState "DOWNLOADED", Effect.otaEnd]
    if ¬ env.ota.endOk then
      (stPub env st1, effs1 ++ [Effect.publishState "FAILED"])
    else
      let effs2 := effs1 ++ [Effect.getAppDesc]
      if ¬ env.ota.descOk then (st1, effs2)
      else
        let effs3 := effs2 ++ [Effect.getSha256]
        if ¬ env.ota.shaOk then (st1, effs3)
        else
          let st2 := stPub env st1
          let st3 := stPub env st2
          let effs4 := effs3 ++ [Effect.publishState "VERIFIED",
            Effect.publishState "UPDATING", Effect.setBootTarget]
          if ¬ env.ota.setBootOk then
            (stPub env st3, effs4 ++ [Effect.publishState "FAILED"])
          else
            (st3, effs4 ++ [Effect.deviceRestart])
  else
    (stC, effsB)

/-- Abstraction of an inbound message payload: a parsed firmware-info JSON
body, raw firmware chunk bytes (tracked by length), an empty `{}`/`[]`
message, or an unparsable one. -/
inductive DataPayload where
  | fwInfo (info : FwInfo)
  | chunk (len : Nat)
  | emptyJson
  | malformed
deriving DecidableEq, Repr

/-- The `MQTT_EVENT_DATA` dispatch of `atl_mqtt5_event_handler` (atl_mqtt.c
lines 388-901) for the firmware-update topics.  Topic tests and stale checks
are the source's `strncmp`/`strstr` calls verbatim; a failed stale check,
an empty message or a parse failure `break`s with nothing changed.  The exact
`v1/devices/me/attributes` topic carries shared-attribute configuration
updates, which touch only the configuration record (modelled separately by
`applyMqttModeAttr`), not the coordinator state. -/
def handleFwData (env : MqttEnv) (behaviour : AtlOtaBehaviour) (st : HState)
    (topic : String) (pl : DataPayload) : HState × List Effect :=
  if strncmpEq topic.data "v1/devices/me/attributes".data topic.length then
    (st, [])
  else if strContains "v1/devices/me/attributes/response/".data topic.data then
    if attrRespAccepted topic st.request_id then
      match pl with
      | .fwInfo info => processInfoResponse env st info
      | _ => (st, [])
    else (st, [])
  else if strContains "v2/fw/response/".data topic.data then
    if chunkRespAccepted topic st.request_id then
      match pl with
      | .chunk len => processChunkResponse env behaviour st len
      | _ => (st, [])
    else (st, [])
  else (st, [])

/-- FreeRTOS `portMAX_DELAY` (0xFFFFFFFF).  With `INCLUDE_vTaskSuspend`
enabled (the ESP-IDF default), `xSemaphoreTake(m, portMAX_DELAY)` blocks
indefinitely rather than for a finite number of ticks. -/
def portMaxDelay : Nat := 4294967295

/-- The tick-count argument passed to every `xSemaphoreTake(atl_config_mutex,
...)` in the sources (atl_mqtt.c lines 141 and 598, atl_webserver.c lines 432
and 511, among others): all of them pass `portMAX_DELAY`. -/
def atlConfigMutexTimeout : Nat := portMaxDelay

/-- A timeout is a bounded, finite wait iff it is not the `portMAX_DELAY`
sentinel (any smaller tick count is a finite wait). -/
def BoundedTimeout (t : Nat) : Prop := t < portMaxDelay

/-- The serialized `atl_config_t` record as the byte blob NVS stores under the
`atl_config` key. -/
abbrev ConfigBlob := List Nat

/-- The write-back pattern every configuration update in the sources uses
(e.g. atl_mqtt.c lines 597-604, atl_webserver.c lines 510-517): the mutator
fills a complete local copy and, only if `xSemaphoreTake` succeeds, `memcpy`s
it over the shared record in one piece; if the take fails it only logs and the
shared record is untouched. -/
def atlConfigWriteBack (takeOk : Bool) (shared localCopy : ConfigBlob) :
    ConfigBlob :=
  if takeOk then localCopy else shared

/-- The NVS key/value store, keyed by blob name.  `List.lookup` returns the
most recently set binding. -/
abbrev NvsStore := List (String × ConfigBlob)

/-- `nvs_flash_erase()`: erases the entire NVS flash. -/
def nvsFlashErase (_s : NvsStore) : NvsStore := []

/-- `atl_storage_init` (atl_storage.c lines 33-43): calls `nvs_flash_erase()`
unconditionally on its first line, then `nvs_flash_init()` (which does not
change stored content; the no-free-pages/new-version retry path erases
again, also yielding an empty store). -/
def atl_storage_init (s : NvsStore) : NvsStore := nvsFlashErase s

/-- `nvs_get_blob(handle, key, ...)`: `some` blob, or `none` for
`ESP_ERR_NVS_NOT_FOUND`. -/
def nvsGetBlob (s : NvsStore) (key : String) : Option ConfigBlob :=
  s.lookup key

/-- `nvs_set_blob` followed by `nvs_commit`. -/
def nvsSetBlob (s : NvsStore) (key : String) (b : ConfigBlob) : NvsStore :=
  (key, b) :: s

/-- Boot-time inputs of `atl_config_create_default` (atl_config.c lines
38-57): the record is assembled from Kconfig constants and the efuse MAC
address; its serialized bytes are abstracted as one blob value. -/
structure BootEnv where
  defaultBlob : ConfigBlob

/-- `atl_config_create_default` (atl_config.c lines 38-57): produces the
compiled-in default record for this device. -/
def atl_config_create_default (env : BootEnv) : ConfigBlob := env.defaultBlob

/-- `atl_config_init` (atl_config.c lines 65-122), NVS content only: load the
`atl_config` blob; when it is absent, create the default record, store it
under `atl_config` and commit.  Returns the in-memory record and the
resulting store. -/
def atl_config_init (env : BootEnv) (s : NvsStore) : ConfigBlob × NvsStore :=
  match nvsGetBlob s "atl_config" with
  | some b => (b, s)
  | none =>
    let d := atl_config_create_default env
    (d, nvsSetBlob s "atl_config" d)

/-- The storage/configuration part of `app_main` (atl_main.c lines 49-52):
`atl_storage_init()` then `atl_config_init()`. -/
def appMainStorageBoot (env : BootEnv) (s : NvsStore) : ConfigBlob × NvsStore :=
  atl_config_init env (atl_storage_init s)

/-- `atl_mqtt_mode_str` (atl_mqtt.c lines 32-36): 3 entries, no NULL
sentinel. -/
def atl_mqtt_mode_str : List String :=
  ["ATL_MQTT_DISABLED", "ATL_MQTT_AGROTECHLAB_CLOUD", "ATL_MQTT_THIRD"]

/-- `atl_mqtt_transport_str` (atl_mqtt.c lines 38-44): 5 entries, no NULL
sentinel. -/
def atl_mqtt_transport_str : List String :=
  ["MQTT_TRANSPORT_UNKNOWN", "MQTT_TRANSPORT_OVER_TCP",
   "MQTT_TRANSPORT_OVER_SSL", "MQTT_TRANSPORT_OVER_WS",
   "MQTT_TRANSPORT_OVER_WSS"]

/-- Result of the `while (tbl[i] != NULL)` lookup loops: a match at index `i`;
`ret255` would require reading a NULL entry inside the table (none of the two
tables contains one); `outOfBounds i` marks the loop reading element `i` past
the end of the array, which in the C program is an out-of-bounds access. -/
inductive LookupResult where
  | found (i : Nat)
  | ret255
  | outOfBounds (i : Nat)
deriving DecidableEq, Repr

/-- The lookup loop shared by `atl_mqtt_get_mode` and
`atl_mqtt_get_transport`: walk the table from index `i`; the list argument is
the remaining suffix of the table, so exhausting it means the next iteration
reads `tbl[i]` with `i` equal to the array length. -/
def lookupAux (s : String) : List String → Nat → LookupResult
  | [], i => .outOfBounds i
  | t :: rest, i => if s = t then .found i else lookupAux s rest (i + 1)

/-- `atl_mqtt_get_mode` (atl_mqtt.c lines 83-93). -/
def atl_mqtt_get_mode (mode_str : String) : LookupResult :=
  lookupAux mode_str atl_mqtt_mode_str 0

/-- `atl_mqtt_get_transport` (atl_mqtt.c lines 100-110). -/
def atl_mqtt_get_transport (transport_str : String) : LookupResult :=
  lookupAux transport_str atl_mqtt_transport_str 0

/-- The `mqtt_client.mode` shared-attribute handler (atl_mqtt.c lines
501-512): compares the JSON number against `ATL_MQTT_DISABLED` (0), then
`ATL_MQTT_AGROTECHLAB_CLOUD` (1), then — in a duplicated branch —
`ATL_MQTT_AGROTECHLAB_CLOUD` (1) again; any other value is only logged and
the field keeps its current value.  The JSON double is modelled as an `Int`
(the enumerated values are integers). -/
def applyMqttModeAttr (v : Int) (cur : AtlMqttMode) : AtlMqttMode :=
  if v = 0 then .disabled
  else if v = 1 then .agrotechlabCloud
  else if v = 1 then .agrotechlabCloud
  else cur

/-! Concrete fixtures used to evaluate the handler on specific inputs. -/

/-- OTA environment in which every partition operation succeeds. -/
def allOkOta : OtaEnv :=
  { nextPartitionOk := true
    beginOk := true
    beginHandle := 7
    writeOk := true
    endOk := true
    descOk := true
    shaOk := true
    setBootOk := true }

/-- Environment of a fully healthy device: running image
`greenfield_fw 0.1.0`, all OTA operations succeed, the broker returns the
publish count as each publish's message id. -/
def fullOkEnv : MqttEnv :=
  { pubRet := fun k => (k : Int)
    runningTitle := "greenfield_fw"
    runningVersion := "0.1.0"
    ota := allOkOta }

/-- Like `fullOkEnv` but `esp_ota_begin` fails. -/
def beginFailEnv : MqttEnv := { fullOkEnv with ota := { allOkOta with beginOk := false } }

/-- Like `fullOkEnv` but `esp_partition_get_sha256` fails. -/
def shaFailEnv : MqttEnv := { fullOkEnv with ota := { allOkOta with shaOk := false } }

/-- Handler state right after a 3-chunk download was negotiated and chunk 0
requested under request id 1. -/
def stFirstChunk : HState := { initialHState with request_id := 1, chunk_count := 3 }

/-- Handler state while awaiting the last of 3 chunks (chunks 0 and 1 already
written to handle 7) under request id 3. -/
def stLastChunk : HState :=
  { initialHState with
    request_id := 3
    chunk_count := 3
    chunk_current := 2
    update_handle := 7
    hasPartition := true }

/-- Firmware-info payload advertising a newer version of the running title,
10000 bytes long. -/
def infoNewVersion : FwInfo :=
  { fw_title := "greenfield_fw", fw_version := "0.2.0", fw_size := 10000 }

/-- Firmware-info payload advertising exactly the running (title, version). -/
def infoSameVersion : FwInfo :=
  { fw_title := "greenfield_fw", fw_version := "0.1.0", fw_size := 10000 }

/-- Helper: the ceiling division of 0 by anything is 0 (the `chunk_count`
computed for a zero-size firmware report). -/
theorem ceilDiv_zero (b : Nat) : ceilDiv 0 b = 0 := by
  match b with
  | 0 => rfl
  | n + 1 =>
    show (0 + (n + 1) - 1) / (n + 1) = 0
    rw [Nat.zero_add, Nat.add_sub_cancel]
    exact Nat.div_eq_of_lt (Nat.lt_succ_self n)

/-- C1: with update policy `VerifyAndNotify`, once the last chunk is accepted
and every partition operation succeeds, the handler does not stop after
publishing `VERIFIED`: it goes on to publish `UPDATING`, calls
`esp_ota_set_boot_partition` and `esp_restart()` — the effect trace is
identical to the one under `DownloadAndReboot`, because the chunk branch
never reads `ota.behaviour`.  This refutes the claim that a
`VerifyAndNotify` session stops after the `VERIFIED` publish. -/
theorem c1_verify_notify_still_activates_and_reboots :
    (processChunkResponse fullOkEnv .verifyNotify stLastChunk 1808).2
      = [Effect.otaWrite 1808, Effect.publishState "DOWNLOADED", Effect.otaEnd,
         Effect.getAppDesc, Effect.getSha256, Effect.publishState "VERIFIED",
         Effect.publishState "UPDATING", Effect.setBootTarget, Effect.deviceRestart]
    ∧ processChunkResponse fullOkEnv .verifyNotify stLastChunk 1808
        = processChunkResponse fullOkEnv .downloadReboot stLastChunk 1808 := by
  decide

/-- C2: a failing `esp_ota_begin` on chunk 0 publishes `FAILED` but does not
terminate the session — the same invocation still writes the chunk and still
requests chunk 1; and a failing `esp_partition_get_sha256` (digest failure)
never attempts a `FAILED` publish at all.  This refutes the claim that every
storage error terminates the session immediately with a `FAILED` publish
attempt. -/
theorem c2_storage_error_session_continues :
    (processChunkResponse beginFailEnv .downloadReboot stFirstChunk 4096).2
      = [Effect.otaBegin, Effect.otaAbort, Effect.publishState "FAILED",
         Effect.otaWrite 4096, Effect.requestChunk 1]
    ∧ Effect.publishState "FAILED"
        ∉ (processChunkResponse shaFailEnv .downloadReboot stLastChunk 1808).2 := by
  decide

/-- C3 counterexample: the tick count passed to every
`xSemaphoreTake(atl_config_mutex, ...)` is `portMAX_DELAY`, which is not a
bounded, finite timeout (it makes the take block indefinitely).  This refutes
the claim that reads and updates of the shared configuration block only for a
bounded, finite lock-acquisition timeout. -/
theorem c3_timeout_is_not_bounded : ¬ BoundedTimeout atlConfigMutexTimeout :=
  fun h => Nat.lt_irrefl portMaxDelay h

/-- C3 (amended): every configuration read/update blocks on the
configuration mutex with `portMAX_DELAY` — an unbounded, indefinite wait —
and when a take does fail the whole-record write-back is skipped, leaving the
shared configuration completely unchanged (mutations are prepared in a local
copy and applied in a single copy, never partially). -/
theorem c3_unbounded_wait_no_partial_update :
    atlConfigMutexTimeout = portMaxDelay
    ∧ ∀ shared localCopy : ConfigBlob,
        atlConfigWriteBack false shared localCopy = shared :=
  ⟨rfl, fun _ _ => rfl⟩

/-- C4: for a 10000-byte firmware the handler does compute
`chunk_count = ceil(10000/4096) = 3` and request chunk 0 (under the fresh
request id 1), but the chunk stale check compares the inbound topic against
`v2/fw/response/1/chunk/` — a string without the chunk index — over
`topic_len` characters, so even the exactly matching response topic
`v2/fw/response/1/chunk/0` is rejected and dropped with no state change and
no effect.  Chunk 1 is therefore never requested and no download can
complete, refuting the claim that a fully successful download requests
chunks 0..2. -/
theorem c4_matching_chunk_response_dropped :
    ceilDiv 10000 4096 = 3
    ∧ (processInfoResponse fullOkEnv initialHState infoNewVersion).1.chunk_count = 3
    ∧ (processInfoResponse fullOkEnv initialHState infoNewVersion).2
        = [Effect.publishState "DOWNLOADING", Effect.requestChunk 0]
    ∧ (processInfoResponse fullOkEnv initialHState infoNewVersion).1.request_id = 1
    ∧ chunkRespAccepted (chunkRespTopic 1 0) 1 = false
    ∧ handleFwData fullOkEnv .downloadReboot
        (processInfoResponse fullOkEnv initialHState infoNewVersion).1
        (chunkRespTopic 1 0) (.chunk 4096)
        = ((processInfoResponse fullOkEnv initialHState infoNewVersion).1, []) := by
  decide

/-- C5: with attribute request id 10 outstanding, a stale response with
correlation id 1 (topic `v1/devices/me/attributes/response/1`) passes the
stale check, because `strncmp` limited to `topic_len` characters accepts any
id that is a decimal prefix of the current id — and the message is then fully
processed (here publishing `UPDATED` and advancing the publish counter).
This refutes the claim that every response whose id differs from the
outstanding one is discarded without further processing. -/
theorem c5_stale_prefix_id_fully_processed :
    attrRespAccepted "v1/devices/me/attributes/response/1" 10 = true
    ∧ handleFwData fullOkEnv .downloadReboot { initialHState with request_id := 10 }
        "v1/devices/me/attributes/response/1" (.fwInfo infoSameVersion)
        = ({ initialHState with request_id := 10, pubs := 1 },
           [Effect.publishState "UPDATED"]) := by
  decide

/-- C6 counterexample: a firmware-info response with `fw_size = 0` (matching
title, different version) is not rejected — the handler publishes
`DOWNLOADING` and issues the chunk-0 request, with `chunk_count` computed
as 0. -/
theorem c6_zero_size_not_rejected :
    (processInfoResponse fullOkEnv initialHState
        { fw_title := "greenfield_fw", fw_version := "0.2.0", fw_size := 0 }).2
      = [Effect.publishState "DOWNLOADING", Effect.requestChunk 0]
    ∧ (processInfoResponse fullOkEnv initialHState
        { fw_title := "greenfield_fw", fw_version := "0.2.0", fw_size := 0 }).1.chunk_count
        = 0 := by
  decide

/-- C6 (amended): a zero-byte firmware report receives no special rejection:
whenever the reported title matches the running title and the version
differs, the handler publishes `DOWNLOADING` and requests chunk
`chunk_current` exactly as for any other size, with `chunk_count`
computed as `ceil(0 / chunk_size) = 0`. -/
theorem c6_zero_size_enters_downloading (env : MqttEnv) (st : HState)
    (info : FwInfo) (ht : info.fw_title = env.runningTitle)
    (hv : info.fw_version ≠ env.runningVersion) (hs : info.fw_size = 0) :
    (processInfoResponse env st info).2
      = [Effect.publishState "DOWNLOADING", Effect.requestChunk st.chunk_current]
    ∧ (processInfoResponse env st info).1.chunk_count = 0 := by
  unfold processInfoResponse
  rw [if_neg (by rintro ⟨-, h⟩; exact hv h), if_pos ⟨ht, hv⟩]
  exact ⟨rfl, by simp [stPub, hs, ceilDiv_zero]⟩

/-- C6 witness: instantiation of the amended theorem at a concrete zero-size
report against the `greenfield_fw 0.1.0` running image. -/
theorem c6_zero_size_enters_downloading_witness :
    (processInfoResponse fullOkEnv initialHState
        { fw_title := "greenfield_fw", fw_version := "9.9.9", fw_size := 0 }).2
      = [Effect.publishState "DOWNLOADING", Effect.requestChunk 0]
    ∧ (processInfoResponse fullOkEnv initialHState
        { fw_title := "greenfield_fw", fw_version := "9.9.9", fw_size := 0 }).1.chunk_count
        = 0 :=
  c6_zero_size_enters_downloading fullOkEnv initialHState
    { fw_title := "greenfield_fw", fw_version := "9.9.9", fw_size := 0 }
    rfl (by decide) rfl

/-- C7: when the reported (title, version) equals the running image's
(title, version), the handler publishes exactly the up-to-date status
(`UPDATED`) and nothing else: no `esp_ota_begin` call is made and the
partition/write-handle/chunk state is untouched. -/
theorem c7_current_firmware_only_publishes_updated (env : MqttEnv)
    (st : HState) (info : FwInfo) (ht : info.fw_title = env.runningTitle)
    (hv : info.fw_version = env.runningVersion) :
    (processInfoResponse env st info).2 = [Effect.publishState "UPDATED"]
    ∧ Effect.otaBegin ∉ (processInfoResponse env st info).2
    ∧ (processInfoResponse env st info).1.update_handle = st.update_handle
    ∧ (processInfoResponse env st info).1.hasPartition = st.hasPartition
    ∧ (processInfoResponse env st info).1.chunk_current = st.chunk_current
    ∧ (processInfoResponse env st info).1.chunk_count = st.chunk_count := by
  unfold processInfoResponse
  rw [if_pos ⟨ht, hv⟩]
  exact ⟨rfl, by simp, rfl, rfl, rfl, rfl⟩

/-- C7 witness: instantiation at a report equal to the running
`greenfield_fw 0.1.0` image. -/
theorem c7_current_firmware_only_publishes_updated_witness :
    (processInfoResponse fullOkEnv initialHState infoSameVersion).2
      = [Effect.publishState "UPDATED"]
    ∧ Effect.otaBegin ∉ (processInfoResponse fullOkEnv initialHState infoSameVersion).2
    ∧ (processInfoResponse fullOkEnv initialHState infoSameVersion).1.update_handle
        = initialHState.update_handle
    ∧ (processInfoResponse fullOkEnv initialHState infoSameVersion).1.hasPartition
        = initialHState.hasPartition
    ∧ (processInfoResponse fullOkEnv initialHState infoSameVersion).1.chunk_current
        = initialHState.chunk_current
    ∧ (processInfoResponse fullOkEnv initialHState infoSameVersion).1.chunk_count
        = initialHState.chunk_count :=
  c7_current_firmware_only_publishes_updated fullOkEnv initialHState
    infoSameVersion rfl rfl

/-- C8: `atl_storage_init` erases the entire NVS flash before initializing
it, so a configuration blob committed in a previous session is never found at
the next boot: after the `app_main` boot sequence, the in-memory record is
the compiled-in default and the persisted `atl_config` blob is the default
record, whatever was stored before. -/
theorem c8_boot_always_recreates_default_config (env : BootEnv)
    (s : NvsStore) (b : ConfigBlob)
    (hprev : nvsGetBlob s "atl_config" = some b) :
    nvsGetBlob (atl_storage_init s) "atl_config" = none
    ∧ (appMainStorageBoot env s).1 = atl_config_create_default env
    ∧ nvsGetBlob (appMainStorageBoot env s).2 "atl_config"
        = some (atl_config_create_default env) :=
  ⟨rfl, rfl, rfl⟩

/-- C8 witness: a store holding a previously committed (non-default)
configuration blob is erased and replaced by the default record. -/
theorem c8_boot_always_recreates_default_config_witness :
    nvsGetBlob (atl_storage_init [("atl_config", [9, 9, 9])]) "atl_config" = none
    ∧ (appMainStorageBoot ⟨[1, 2, 3]⟩ [("atl_config", [9, 9, 9])]).1
        = atl_config_create_default ⟨[1, 2, 3]⟩
    ∧ nvsGetBlob (appMainStorageBoot ⟨[1, 2, 3]⟩ [("atl_config", [9, 9, 9])]).2 "atl_config"
        = some (atl_config_create_default ⟨[1, 2, 3]⟩) :=
  c8_boot_always_recreates_default_config ⟨[1, 2, 3]⟩
    [("atl_config", [9, 9, 9])] [9, 9, 9] rfl

/-- C9: the name-table loops find a matching entry at its index (for example
`ATL_MQTT_THIRD` at index 2), but for any string that matches no entry the
`while (tbl[i] != NULL)` guard never sees a NULL — the tables have no
sentinel — so the loop reads element 3 of the 3-entry mode table (and element
5 of the 5-entry transport table), past the end of the array, instead of
returning 255.  This refutes the claim that the lookups never read past the
array end. -/
theorem c9_lookup_reads_past_table_end :
    atl_mqtt_get_mode "ATL_MQTT_THIRD" = .found 2
    ∧ atl_mqtt_get_mode "" = .outOfBounds 3
    ∧ atl_mqtt_get_transport "" = .outOfBounds 5 := by
  decide

/-- C10: the remote shared-attribute update of `mqtt_client.mode` maps 0 to
`Disabled` and 1 to `AgroTechLab-Cloud`, while `ATL_MQTT_THIRD` (2) — like
every other value — falls through to the unknown-value log branch and leaves
the current mode unchanged. -/
theorem c10_mode_attr_rejects_third (cur : AtlMqttMode) (v : Int)
    (h0 : v ≠ 0) (h1 : v ≠ 1) :
    applyMqttModeAttr 0 cur = .disabled
    ∧ applyMqttModeAttr 1 cur = .agrotechlabCloud
    ∧ applyMqttModeAttr 2 cur = cur
    ∧ applyMqttModeAttr v cur = cur := by
  refine ⟨rfl, rfl, rfl, ?_⟩
  unfold applyMqttModeAttr
  rw [if_neg h0, if_neg h1, if_neg h1]

/-- C10 witness: instantiation at the stored mode `third` and the unknown
attribute value 5. -/
theorem c10_mode_attr_rejects_third_witness :
    applyMqttModeAttr 0 .third = .disabled
    ∧ applyMqttModeAttr 1 .third = .agrotechlabCloud
    ∧ applyMqttModeAttr 2 .third = .third
    ∧ applyMqttModeAttr 5 .third = .third :=
  c10_mode_attr_rejects_third .third 5 (by decide) (by decide)

end Greenfield
